import Mathlib

/-!
Verification of the github-jira-sync core against its specification.

This file gives a shallow embedding, in Lean 4, of the parts of the
github-jira-sync TypeScript repository that the verified claims are about:

* the conflict detection / resolution engine (src/conflict-resolution/index.ts),
* the deduplication service (src/deduplication/index.ts),
* the GitHub webhook event hash (src/webhooks/github.ts),
* the sync engine orchestrator (core/sync-engine.ts),
* the queue configuration (src/queue and src/config.ts).

Modelling conventions:

* ISO-8601 datetime strings are modelled as the integer instants they denote
  (the value of new Date(s).getTime(), in milliseconds); the code never
  inspects a datetime string other than by parsing it to an instant or by
  copying it around.
* JavaScript objects of type Record<string, string> are modelled as
  association lists, looked up in insertion order (Object.entries order).
* In-place mutation performed by a function on its argument (JavaScript
  Array.prototype.sort sorts in place) is modelled by returning the mutated
  object next to the function result.
* External services (the Jira/GitHub API clients, Redis, the BullMQ engine)
  are modelled as an explicit environment / explicit state, and the external
  calls a sync operation performs are recorded in an effect trace.
-/

namespace GithubJiraSync

/-! ## JavaScript semantics helpers -/

/-- JavaScript `a || b` for a possibly-undefined string `a`: returns `b`
when `a` is undefined or falsy (the empty string). -/
def jsOrStr : Option String → String → String
  | some s, d => if s = "" then d else s
  | none, d => d

/-- JavaScript `a || b` for possibly-undefined numbers: returns `b` when `a`
is undefined or falsy (zero). -/
def jsOrNat : Option Nat → Option Nat → Option Nat
  | some n, b => if n = 0 then b else some n
  | none, b => b

/-- Template-literal rendering of a possibly-undefined string:
undefined renders as the string undefined. -/
def jsTemplateStr : Option String → String
  | some s => s
  | none => "undefined"

/-- Template-literal rendering of a possibly-undefined number. -/
def jsTemplateNat : Option Nat → String
  | some n => toString n
  | none => "undefined"

/-- JavaScript String.prototype.includes: substring test. -/
def jsIncludes (s pat : String) : Bool :=
  pat == "" || (s.splitOn pat).length != 1

/-- Lexicographic strict order on UTF-16 code-unit sequences (modelled as
code points, which agree on the basic multilingual plane): the order the
default comparator of Array.prototype.sort induces on strings. -/
def charListLt : List Char → List Char → Bool
  | [], [] => false
  | [], _ :: _ => true
  | _ :: _, [] => false
  | a :: as, b :: bs =>
    if a.toNat < b.toNat then true
    else if b.toNat < a.toNat then false
    else charListLt as bs

/-- Non-strict string comparison used by the sort model. -/
def strLeb (a b : String) : Bool := !(charListLt b.data a.data)

/-- One insertion step of the sort used to model Array.prototype.sort on
string arrays (default comparator: code-unit order). -/
def insertSortedStr (x : String) : List String → List String
  | [] => [x]
  | y :: ys => if strLeb x y then x :: y :: ys else y :: insertSortedStr x ys

/-- Array.prototype.sort() on an array of strings, default comparator.
The sort is modelled extensionally (any comparison sort of a totally
ordered list of strings yields this result). -/
def sortStrings : List String → List String
  | [] => []
  | x :: xs => insertSortedStr x (sortStrings xs)

/-- ToInt32: wrap an integer to the signed 32-bit range, as the JavaScript
bitwise operators do. -/
def toInt32 (n : Int) : Int := (n + 2 ^ 31) % 2 ^ 32 - 2 ^ 31

/-! ## Data model (src/types.ts) -/

/-- A GitHub label object (GitHubIssueSchema.labels element). -/
structure GitHubLabel where
  id : Nat
  name : String
  color : String
deriving DecidableEq

/-- A GitHub user object (login plus id; url fields are not inspected by the
core and are omitted). -/
structure GitHubUser where
  id : Nat
  login : String
deriving DecidableEq

/-- A GitHub issue snapshot (GitHubIssueSchema). state is constrained by the
schema to open or closed. -/
structure GitHubIssue where
  id : Nat
  number : Nat
  title : String
  body : Option String
  state : String
  created_at : Int
  updated_at : Int
  closed_at : Option Int
  labels : List GitHubLabel
  assignees : List GitHubUser
  user : GitHubUser
deriving DecidableEq

/-- A GitHub issue comment (GitHubCommentSchema). -/
structure GitHubComment where
  id : Nat
  body : String
  created_at : Int
  updated_at : Int
  user : GitHubUser
deriving DecidableEq

/-- A Jira status category (JiraIssueSchema fields.status.statusCategory). -/
structure JiraStatusCategory where
  key : String
  name : String
deriving DecidableEq

/-- A Jira status (JiraIssueSchema fields.status). -/
structure JiraStatus where
  id : String
  name : String
  statusCategory : JiraStatusCategory
deriving DecidableEq

/-- A Jira user (accountId and displayName; the other fields are not
inspected by the core). -/
structure JiraUser where
  accountId : String
  displayName : String
deriving DecidableEq

/-- The fields object of a Jira issue (JiraIssueSchema fields). -/
structure JiraIssueFields where
  summary : String
  description : Option String
  status : JiraStatus
  created : Int
  updated : Int
  assignee : Option JiraUser
  labels : List String
deriving DecidableEq

/-- A Jira issue snapshot (JiraIssueSchema). -/
structure JiraIssue where
  id : String
  key : String
  fields : JiraIssueFields
deriving DecidableEq

/-- One text span of a Jira rich-text comment body
(JiraCommentSchema body.content[i].content[j]). -/
structure JiraCommentSpan where
  text : String
deriving DecidableEq

/-- One block of a Jira rich-text comment body. -/
structure JiraCommentBlock where
  content : List JiraCommentSpan
deriving DecidableEq

/-- A Jira rich-text comment body (JiraCommentSchema body). -/
structure JiraCommentBody where
  content : List JiraCommentBlock
deriving DecidableEq

/-- A Jira comment (JiraCommentSchema). -/
structure JiraComment where
  id : String
  body : JiraCommentBody
  author : JiraUser
deriving DecidableEq

/-- The repository object of a GitHub webhook payload. -/
structure WebhookRepository where
  id : Nat
  name : String
  full_name : String
deriving DecidableEq

/-- The sender object of a GitHub webhook payload. -/
structure WebhookSender where
  id : Nat
  login : String
  type : String
deriving DecidableEq

/-- A GitHub webhook payload (GitHubWebhookPayloadSchema). The changes
record is opaque to the core and modelled as an association list. -/
structure GitHubWebhookPayload where
  action : Option String
  issue : Option GitHubIssue
  comment : Option GitHubComment
  changes : Option (List (String × String))
  repository : Option WebhookRepository
  sender : WebhookSender
deriving DecidableEq

/-- The conflict-resolution strategy enum (src/types.ts). -/
inductive ConflictResolutionStrategy where
  | GITHUB_WINS
  | JIRA_WINS
  | MANUAL
  | LAST_WRITE_WINS
deriving DecidableEq

/-! ## Conflict engine (src/conflict-resolution/index.ts) -/

/-- The github side of a ConflictData record, as built by detectConflicts. -/
structure GithubConflictSide where
  title : String
  body : Option String
  state : String
  labels : List String
  assignees : List String
  updatedAt : Int
deriving DecidableEq

/-- The jira side of a ConflictData record, as built by detectConflicts. -/
structure JiraConflictSide where
  summary : String
  description : Option String
  status : String
  labels : List String
  assignee : Option String
  updatedAt : Int
deriving DecidableEq

/-- ConflictData (src/conflict-resolution/index.ts). -/
structure ConflictData where
  githubData : GithubConflictSide
  jiraData : JiraConflictSide
  githubUpdatedAt : Int
  jiraUpdatedAt : Int
  conflictingFields : List String
deriving DecidableEq

/-- An operator-supplied label/status mapping pair (the customMapping
argument of resolveConflict). -/
structure CustomMapping where
  labelMapping : Option (List (String × String)) := none
  statusMapping : Option (List (String × String)) := none
deriving DecidableEq

/-- Lookup in a Record<string, string> modelled as an association list. -/
def recordLookup (m : List (String × String)) (k : String) : Option String :=
  (m.find? (fun e => e.1 == k)).map (fun e => e.2)

/-- Object.entries(m).find(([_, v]) => v === value)?.[0]: first key bound to
a given value. -/
def recordFindKeyByValue (m : List (String × String)) (v : String) : Option String :=
  (m.find? (fun e => e.2 == v)).map (fun e => e.1)

/-- getDefaultStatusMapping: the built-in GitHub-state to Jira-status table. -/
def getDefaultStatusMapping : List (String × String) :=
  [("open", "To Do"), ("closed", "Done")]

/-- githubIssue.state === open ? open : closed. -/
def githubOpenState (state : String) : String :=
  if state = "open" then "open" else "closed"

/-- The title/summary comparison of detectConflicts. -/
def titleConflict (githubIssue : GitHubIssue) (jiraIssue : JiraIssue) : Bool :=
  githubIssue.title != jiraIssue.fields.summary

/-- The body/description comparison of detectConflicts (both sides defaulted
to the empty string). -/
def descriptionConflict (githubIssue : GitHubIssue) (jiraIssue : JiraIssue) : Bool :=
  jsOrStr githubIssue.body "" != jsOrStr jiraIssue.fields.description ""

/-- The status comparison of detectConflicts: the literal github state
(normalised to open/closed) against the raw Jira status category key. -/
def statusConflict (githubIssue : GitHubIssue) (jiraIssue : JiraIssue) : Bool :=
  githubOpenState githubIssue.state != jiraIssue.fields.status.statusCategory.key

/-- The label-set comparison of detectConflicts: equal length plus
index-wise equality of the two sorted arrays, i.e. equality of the sorted
lists. -/
def labelsConflict (githubIssue : GitHubIssue) (jiraIssue : JiraIssue) : Bool :=
  let githubLabels := sortStrings (githubIssue.labels.map (fun l => l.name))
  let jiraLabels := sortStrings jiraIssue.fields.labels
  !(githubLabels.length == jiraLabels.length && githubLabels == jiraLabels)

/-- The assignee comparison of detectConflicts: sorted github logins against
the singleton (or empty) Jira assignee display name, compared index-wise
case-insensitively. -/
def assigneesConflict (githubIssue : GitHubIssue) (jiraIssue : JiraIssue) : Bool :=
  let githubAssignees := sortStrings (githubIssue.assignees.map (fun a => a.login))
  let jiraAssignees := match jiraIssue.fields.assignee with
    | some a => [a.displayName]
    | none => []
  !(githubAssignees.length == jiraAssignees.length &&
    githubAssignees.map String.toLower == jiraAssignees.map String.toLower)

/-- The conflicts array of detectConflicts: field names pushed in source
order for each failing comparison. -/
def conflictList (githubIssue : GitHubIssue) (jiraIssue : JiraIssue) : List String :=
  (if titleConflict githubIssue jiraIssue then ["title"] else []) ++
  (if descriptionConflict githubIssue jiraIssue then ["description"] else []) ++
  (if statusConflict githubIssue jiraIssue then ["status"] else []) ++
  (if labelsConflict githubIssue jiraIssue then ["labels"] else []) ++
  (if assigneesConflict githubIssue jiraIssue then ["assignees"] else [])

/-- The ConflictData record returned by detectConflicts when at least one
field differs. The jira labels it carries are the sorted array, because the
source sorted jiraIssue.fields.labels in place before building the record. -/
def conflictReport (githubIssue : GitHubIssue) (jiraIssue : JiraIssue) : ConflictData :=
  { githubData := {
      title := githubIssue.title
      body := githubIssue.body
      state := githubIssue.state
      labels := githubIssue.labels.map (fun l => l.name)
      assignees := githubIssue.assignees.map (fun a => a.login)
      updatedAt := githubIssue.updated_at }
    jiraData := {
      summary := jiraIssue.fields.summary
      description := jiraIssue.fields.description
      status := jiraIssue.fields.status.name
      labels := sortStrings jiraIssue.fields.labels
      assignee := jiraIssue.fields.assignee.map (fun a => a.displayName)
      updatedAt := jiraIssue.fields.updated }
    githubUpdatedAt := githubIssue.updated_at
    jiraUpdatedAt := jiraIssue.fields.updated
    conflictingFields := conflictList githubIssue jiraIssue }

/-- detectConflicts. The unused optional syncState parameter of the source
is omitted. Because jiraIssue.fields.labels.sort() sorts the labels array of
the Jira argument in place, the function is modelled as also returning the
Jira issue as it is left after the call; the GitHub argument is only read
(every access to it copies via Array.prototype.map before sorting). -/
def detectConflicts (githubIssue : GitHubIssue) (jiraIssue : JiraIssue) :
    Option ConflictData × JiraIssue :=
  let conflicts := conflictList githubIssue jiraIssue
  let jiraIssueAfter :=
    { jiraIssue with fields :=
      { jiraIssue.fields with labels := sortStrings jiraIssue.fields.labels } }
  if conflicts = [] then
    (none, jiraIssueAfter)
  else
    (some (conflictReport githubIssue jiraIssue), jiraIssueAfter)

/-- The resolution tag of a ConflictResolutionResult. -/
inductive ResolutionKind where
  | github_wins
  | jira_wins
  | manual
  | merged
deriving DecidableEq

/-- The priority object of a transformed Jira payload. -/
structure JiraPriorityField where
  name : String
deriving DecidableEq

/-- The fields object produced by transformGitHubToJiraFormat. -/
structure JiraFormatFields where
  summary : String
  description : String
  labels : List String
  priority : JiraPriorityField
deriving DecidableEq

/-- The payload produced by transformGitHubToJiraFormat; its transitions
array holds a single transition name. -/
structure JiraFormatPayload where
  fields : JiraFormatFields
  transitionName : String
deriving DecidableEq

/-- The payload produced by transformJiraToGitHubFormat; assignees is the
list of login names. -/
structure GitHubFormatPayload where
  title : String
  body : String
  state : String
  labels : List String
  assignees : List String
deriving DecidableEq

/-- winningData of a ConflictResolutionResult: the winning side snapshot
transformed into the vocabulary of the other system. -/
inductive WinningData where
  | jiraFormat (payload : JiraFormatPayload)
  | githubFormat (payload : GitHubFormatPayload)
deriving DecidableEq

/-- ConflictResolutionResult (src/conflict-resolution/index.ts). Optional
fields of the TypeScript interface are Options defaulting to none. -/
structure ConflictResolutionResult where
  resolved : Bool
  resolution : ResolutionKind
  winningData : Option WinningData := none
  mergedData : Option WinningData := none
  requiresManualReview : Option Bool := none
  conflicts : Option (List String) := none
deriving DecidableEq

/-- transformGitHubToJiraFormat. -/
def transformGitHubToJiraFormat (githubData : GithubConflictSide)
    (customMapping : Option CustomMapping) : JiraFormatPayload :=
  let labels := githubData.labels.map (fun label =>
    jsOrStr (customMapping.bind (fun m => m.labelMapping.bind
      (fun lm => recordLookup lm label))) label)
  let statusMap := match customMapping.bind (fun m => m.statusMapping) with
    | some m => m
    | none => getDefaultStatusMapping
  let githubState := githubData.state
  let jiraStatus := jsOrStr (recordLookup statusMap githubState) "To Do"
  { fields := {
      summary := githubData.title
      description := jsOrStr githubData.body ""
      labels := labels
      priority := { name := "Medium" } }
    transitionName := jiraStatus }

/-- transformJiraToGitHubFormat. -/
def transformJiraToGitHubFormat (jiraData : JiraConflictSide)
    (customMapping : Option CustomMapping) : GitHubFormatPayload :=
  let labels := jiraData.labels.map (fun label =>
    let reverseMap := match customMapping.bind (fun m => m.labelMapping) with
      | some lm => recordFindKeyByValue lm label
      | none => none
    jsOrStr reverseMap label)
  let jiraStatus := jiraData.status
  let statusMap := match customMapping.bind (fun m => m.statusMapping) with
    | some m => m
    | none => getDefaultStatusMapping
  let state := match statusMap.find? (fun e => e.2 == jiraStatus) with
    | some e => e.1
    | none => "open"
  { title := jiraData.summary
    body := jsOrStr jiraData.description ""
    state := state
    labels := labels
    assignees := match jiraData.assignee with
      | some a => [a]
      | none => [] }

/-- resolveGitHubWins. -/
def resolveGitHubWins (conflictData : ConflictData)
    (customMapping : Option CustomMapping) : ConflictResolutionResult :=
  { resolved := true
    resolution := ResolutionKind.github_wins
    winningData := some (WinningData.jiraFormat
      (transformGitHubToJiraFormat conflictData.githubData customMapping))
    conflicts := some conflictData.conflictingFields }

/-- resolveJiraWins. -/
def resolveJiraWins (conflictData : ConflictData)
    (customMapping : Option CustomMapping) : ConflictResolutionResult :=
  { resolved := true
    resolution := ResolutionKind.jira_wins
    winningData := some (WinningData.githubFormat
      (transformJiraToGitHubFormat conflictData.jiraData customMapping))
    conflicts := some conflictData.conflictingFields }

/-- resolveLastWriteWins: compares the two updatedAt instants and delegates;
the else branch (taken on equality too) delegates to resolveJiraWins. -/
def resolveLastWriteWins (conflictData : ConflictData)
    (customMapping : Option CustomMapping) : ConflictResolutionResult :=
  let githubTime := conflictData.githubUpdatedAt
  let jiraTime := conflictData.jiraUpdatedAt
  if githubTime > jiraTime then
    resolveGitHubWins conflictData customMapping
  else
    resolveJiraWins conflictData customMapping

/-- resolveManual. -/
def resolveManual (conflictData : ConflictData) : ConflictResolutionResult :=
  { resolved := false
    resolution := ResolutionKind.manual
    requiresManualReview := some true
    conflicts := some conflictData.conflictingFields }

/-- resolveConflict: dispatch on the configured strategy. The unreachable
default branch of the source switch also routes to resolveLastWriteWins. -/
def resolveConflict (conflictData : ConflictData)
    (strategy : ConflictResolutionStrategy)
    (customMapping : Option CustomMapping) : ConflictResolutionResult :=
  match strategy with
  | ConflictResolutionStrategy.GITHUB_WINS =>
    resolveGitHubWins conflictData customMapping
  | ConflictResolutionStrategy.JIRA_WINS =>
    resolveJiraWins conflictData customMapping
  | ConflictResolutionStrategy.LAST_WRITE_WINS =>
    resolveLastWriteWins conflictData customMapping
  | ConflictResolutionStrategy.MANUAL =>
    resolveManual conflictData

/-! ## Deduplication service (src/deduplication/index.ts) -/

/-- The key namespace of the deduplication service (source constant
DEDUP_PREFIX). -/
def dedupKeyNamespace : String := "sync:dedup:"

/-- The default time-to-live of a deduplication key, in seconds (source
constant DEFAULT_TTL). -/
def defaultDedupTtl : Nat := 300

/-- The Redis keyspace as the deduplication service sees it: each key with
the absolute instant (seconds) at which it expires. A key is visible while
the current time is strictly before its expiry. -/
structure DedupStore where
  entries : List (String × Nat)
deriving DecidableEq

/-- Whether a key is present and unexpired at the given instant. -/
def DedupStore.live (st : DedupStore) (now : Nat) (key : String) : Bool :=
  match st.entries.find? (fun e => e.1 == key) with
  | some e => decide (now < e.2)
  | none => false

/-- Redis SET key value EX ttl NX: atomically create the key with expiry
now + ttl if it is absent or expired, reporting whether the set happened. -/
def DedupStore.setNxEx (st : DedupStore) (now : Nat) (key : String) (ttl : Nat) :
    Bool × DedupStore :=
  if st.live now key then
    (false, st)
  else
    (true, ⟨(key, now + ttl) :: st.entries.filter (fun e => !(e.1 == key))⟩)

/-- Whether the Redis operation underlying a store call succeeds or raises;
the source wraps every store call in try/catch. -/
inductive StoreOutcome where
  | ok
  | err
deriving DecidableEq

/-- The result record of processDeduplication. -/
structure DedupResult where
  isDuplicate : Bool
  shouldProcess : Bool
deriving DecidableEq

/-- processDeduplication: one atomic claim via SET ... EX ttl NX on the
prefixed hash. On success the event may be processed; on a duplicate it must
be skipped; if the Redis call raises, the catch branch allows processing. -/
def processDeduplication (st : DedupStore) (now : Nat) (outcome : StoreOutcome)
    (hash : String) (ttl : Nat) : DedupResult × DedupStore :=
  match outcome with
  | StoreOutcome.err => ({ isDuplicate := false, shouldProcess := true }, st)
  | StoreOutcome.ok =>
    let r := st.setNxEx now (dedupKeyNamespace ++ hash) ttl
    if r.1 then
      ({ isDuplicate := false, shouldProcess := true }, r.2)
    else
      ({ isDuplicate := true, shouldProcess := false }, r.2)

/-- isDuplicate: a read-only existence check on the prefixed hash; if the
Redis call raises, the catch branch reports not-a-duplicate. -/
def isDuplicate (st : DedupStore) (now : Nat) (outcome : StoreOutcome)
    (hash : String) : Bool :=
  match outcome with
  | StoreOutcome.err => false
  | StoreOutcome.ok => st.live now (dedupKeyNamespace ++ hash)

/-! ## GitHub webhook event hash (src/webhooks/github.ts) -/

/-- event.issue?.id || event.comment?.id, with JavaScript || semantics. -/
def webhookEventId (event : GitHubWebhookPayload) : Option Nat :=
  jsOrNat (event.issue.map (fun i => i.id)) (event.comment.map (fun c => c.id))

/-- The template-literal data string hashed by generateEventHash:
source, action, repository full name, issue-or-comment id and sender id,
joined with colons. -/
def webhookHashData (source : String) (event : GitHubWebhookPayload) : String :=
  source ++ ":" ++ jsTemplateStr event.action ++ ":" ++
    jsTemplateStr (event.repository.map WebhookRepository.full_name) ++ ":" ++
    jsTemplateNat (webhookEventId event) ++ ":" ++ toString event.sender.id

/-- One iteration of the hash loop:
hash = ((hash << 5) - hash) + char; hash = hash & hash. Both bitwise
operations truncate to signed 32 bits; the intermediate subtraction and
addition are exact. -/
def hashStep (hash : Int) (char : Nat) : Int :=
  toInt32 (toInt32 (hash * 32) - hash + char)

/-- The string hash loop of generateEventHash, folded over the UTF-16 code
units of the data string (modelled as code points, which agree on the
basic multilingual plane). -/
def jsStringHash (data : String) : Int :=
  data.data.foldl (fun h c => hashStep h c.toNat) 0

/-- The character for one base-36 digit (0-9 then a-z). -/
def base36DigitChar (d : Nat) : Char :=
  if d < 10 then Char.ofNat (48 + d) else Char.ofNat (87 + d)

/-- Helper for natToBase36: peel off base-36 digits, fuel-bounded. -/
def natToBase36Go (fuel n : Nat) (acc : List Char) : List Char :=
  match fuel with
  | 0 => acc
  | fuel + 1 =>
    let d := base36DigitChar (n % 36)
    if n / 36 = 0 then d :: acc
    else natToBase36Go fuel (n / 36) (d :: acc)

/-- Number.prototype.toString(36) for a non-negative integer. -/
def natToBase36 (n : Nat) : String :=
  String.mk (natToBase36Go (n + 1) n [])

/-- generateEventHash (the webhook-local one in src/webhooks/github.ts):
hash the routing data string and render Math.abs of the result in base 36. -/
def generateEventHash (source : String) (event : GitHubWebhookPayload) : String :=
  natToBase36 (jsStringHash (webhookHashData source event)).natAbs

/-! ## Correlation map and sync engine (core/sync-engine.ts)

The persistence helpers of the sync engine are stubs in the repository
(getJiraKeyForGitHubIssue and getGitHubNumberForJiraIssue return null with
the comment "In production, this would query a database or Redis", and
storeMapping only logs). The store they stand for is modelled from the
spec; the orchestrator control flow around it is embedded from the source.
-/

/-- Modelled from the spec: the persistent correlation map behind the sync
stubbed mapping helpers of the sync engine — "CorrelationEntry: {systemAId, systemBId,
...}. Invariant: at most one live entry per systemAId and per systemBId".
An entry links a GitHub issue id (the engine passes its decimal string) to
a Jira issue key. -/
abbrev CorrMap := List (Nat × String)

/-- Modelled from the spec: getJiraKeyForGitHubIssue — correlation lookup
by the GitHub issue id. -/
def getJiraKeyForGitHubIssue (st : CorrMap) (githubIssueId : Nat) : Option String :=
  (st.find? (fun e => e.1 == githubIssueId)).map (fun e => e.2)

/-- Modelled from the spec: getGitHubNumberForJiraIssue — correlation lookup
by the Jira issue key. -/
def getGitHubNumberForJiraIssue (st : CorrMap) (jiraKey : String) : Option Nat :=
  (st.find? (fun e => e.2 == jiraKey)).map (fun e => e.1)

/-- Modelled from the spec: storeMapping — record a new correlation entry. -/
def storeMapping (st : CorrMap) (githubId : Nat) (jiraKey : String) : CorrMap :=
  (githubId, jiraKey) :: st

/-- A Jira workflow transition as returned by jiraClient.getTransitions
(only the id and the target status name are inspected). -/
structure JiraTransition where
  id : String
  toName : String
deriving DecidableEq

/-- A Jira comment as returned by jiraClient.getComments. -/
structure JiraServerComment where
  id : String
  body : JiraCommentBody
deriving DecidableEq

/-- The slice of the loaded configuration the sync engine reads. -/
structure SyncEngineConfig where
  jiraProjectKey : String
  githubOrg : String
  githubRepo : String
  conflictResolution : ConflictResolutionStrategy
deriving DecidableEq

/-- The environment of one sync operation: the configuration plus the
responses of the external Jira/GitHub API calls the operation may make. -/
structure Env where
  config : SyncEngineConfig
  jiraCreateKey : String
  jiraGetIssue : String → JiraIssue
  jiraTransitions : String → List JiraTransition
  jiraGetComments : String → List JiraServerComment
  jiraCreateCommentId : String
  githubCreateNumber : Nat
  githubGetIssue : Nat → GitHubIssue
  githubCreateCommentId : Nat

/-- The external calls a sync operation performs, in order. -/
inductive Effect where
  | jiraCreateIssue (projectKey summary description : String) (labels : List String)
  | jiraGetIssue (key : String)
  | jiraUpdateIssue (key summary description : String) (labels : List String)
  | jiraGetTransitions (key : String)
  | jiraTransitionIssue (key transitionId : String)
  | jiraCreateComment (key body : String)
  | jiraGetComments (key : String)
  | jiraUpdateComment (key commentId body : String)
  | githubCreateIssue (org repo title body : String) (labels : List String)
  | githubCreateComment (org repo : String) (issueNumber : Nat) (body : String)
  | githubGetComments (org repo : String) (issueNumber : Nat)
  | storeMappingWrite (githubId : Nat) (jiraKey : String)
deriving DecidableEq

/-- Whether an effect creates an issue on either target system. -/
def Effect.isCreateIssue : Effect → Bool
  | Effect.jiraCreateIssue _ _ _ _ => true
  | Effect.githubCreateIssue _ _ _ _ _ => true
  | _ => false

/-- Whether an effect is an issue update on either target system. -/
def Effect.isUpdateIssue : Effect → Bool
  | Effect.jiraUpdateIssue _ _ _ _ => true
  | _ => false

/-- The number of target-issue creations in an effect trace. -/
def countCreates (effects : List Effect) : Nat :=
  (effects.filter Effect.isCreateIssue).length

/-- Whether an effect trace contains a target-issue update call. -/
def hasUpdateCall (effects : List Effect) : Bool :=
  effects.any Effect.isUpdateIssue

/-- SyncResult (core/sync-engine.ts). -/
structure SyncResult where
  success : Bool
  sourceId : String
  targetId : Option String := none
  error : Option String := none
  conflictResolved : Option Bool := none
deriving DecidableEq

/-- The outcome of one sync operation: its result, the correlation map as
left behind, and the trace of external calls made. -/
structure EngineStep where
  result : SyncResult
  corr : CorrMap
  effects : List Effect
deriving DecidableEq

/-- The create branch of syncGitHubIssueCreated: create the Jira issue,
then record the new correlation entry. -/
def createJiraFromGitHub (env : Env) (st : CorrMap) (githubIssue : GitHubIssue) :
    EngineStep :=
  let key := env.jiraCreateKey
  { result := { success := true, sourceId := toString githubIssue.id, targetId := some key }
    corr := storeMapping st githubIssue.id key
    effects := [
      Effect.jiraCreateIssue env.config.jiraProjectKey githubIssue.title
        (jsOrStr githubIssue.body "") (githubIssue.labels.map (fun l => l.name)),
      Effect.storeMappingWrite githubIssue.id key] }

/-- The body of syncGitHubIssueUpdated once a correlation entry is known:
fetch the Jira snapshot, run conflict detection and resolution, update the
Jira issue, and transition it when the GitHub issue is closed. -/
def updateJiraFromGitHub (env : Env) (st : CorrMap) (githubIssue : GitHubIssue)
    (jiraKey : String) : EngineStep :=
  let jiraIssue := env.jiraGetIssue jiraKey
  let conflictData := (detectConflicts githubIssue jiraIssue).1
  let conflictResolved :=
    match conflictData with
    | some cd => (resolveConflict cd env.config.conflictResolution none).resolved
    | none => false
  let transitionEffects :=
    if githubIssue.state = "closed" then
      match (env.jiraTransitions jiraKey).find? (fun t => t.toName == "Done") with
      | some t => [Effect.jiraGetTransitions jiraKey,
                   Effect.jiraTransitionIssue jiraKey t.id]
      | none => [Effect.jiraGetTransitions jiraKey]
    else []
  { result := { success := true, sourceId := toString githubIssue.id,
                targetId := some jiraKey, conflictResolved := some conflictResolved }
    corr := st
    effects := [Effect.jiraGetIssue jiraKey,
      Effect.jiraUpdateIssue jiraKey githubIssue.title (jsOrStr githubIssue.body "")
        (githubIssue.labels.map (fun l => l.name))] ++ transitionEffects }

/-- syncGitHubIssueCreated: look up the correlation; if an entry exists the
call is routed to syncGitHubIssueUpdated (whose own lookup re-reads the
unchanged store and finds the same entry, so the mutual call is unfolded one
step), otherwise create and record the mapping. -/
def syncGitHubIssueCreated (env : Env) (st : CorrMap) (githubIssue : GitHubIssue) :
    EngineStep :=
  match getJiraKeyForGitHubIssue st githubIssue.id with
  | some jiraKey => updateJiraFromGitHub env st githubIssue jiraKey
  | none => createJiraFromGitHub env st githubIssue

/-- syncGitHubIssueUpdated: fall back to the create branch when no
correlation exists (the source calls syncGitHubIssueCreated, whose own
lookup re-reads the unchanged store and again finds nothing). The action
argument of the source is unused. -/
def syncGitHubIssueUpdated (env : Env) (st : CorrMap) (githubIssue : GitHubIssue)
    (_action : String) : EngineStep :=
  match getJiraKeyForGitHubIssue st githubIssue.id with
  | none => createJiraFromGitHub env st githubIssue
  | some jiraKey => updateJiraFromGitHub env st githubIssue jiraKey

/-- syncGitHubCommentCreated: requires the parent issue to be mapped;
otherwise fails with the parent-not-mapped error without any external call. -/
def syncGitHubCommentCreated (env : Env) (st : CorrMap) (comment : GitHubComment)
    (issue : GitHubIssue) : EngineStep :=
  match getJiraKeyForGitHubIssue st issue.id with
  | none =>
    { result := { success := false, sourceId := toString comment.id,
                  error := some "Jira issue not found" }
      corr := st
      effects := [] }
  | some jiraKey =>
    let commentBody := "**" ++ comment.user.login ++ "** commented on GitHub:\n\n" ++
      comment.body
    { result := { success := true, sourceId := toString comment.id,
                  targetId := some env.jiraCreateCommentId }
      corr := st
      effects := [Effect.jiraCreateComment jiraKey commentBody] }

/-- body.content[0]?.content[0]?.text of a Jira comment body. -/
def firstSpanText (body : JiraCommentBody) : Option String :=
  (body.content.head?.bind (fun b => b.content.head?)).map (fun s => s.text)

/-- syncGitHubCommentUpdated: requires the parent issue to be mapped;
otherwise fails with the parent-not-mapped error. When mapped, it looks for
an existing Jira comment whose first text span mentions the GitHub login
and updates it if found. -/
def syncGitHubCommentUpdated (env : Env) (st : CorrMap) (comment : GitHubComment)
    (issue : GitHubIssue) : EngineStep :=
  match getJiraKeyForGitHubIssue st issue.id with
  | none =>
    { result := { success := false, sourceId := toString comment.id,
                  error := some "Jira issue not found" }
      corr := st
      effects := [] }
  | some jiraKey =>
    let comments := env.jiraGetComments jiraKey
    let existingComment := comments.find? (fun c =>
      match firstSpanText c.body with
      | some t => jsIncludes t comment.user.login
      | none => false)
    match existingComment with
    | some ec =>
      { result := { success := true, sourceId := toString comment.id,
                    targetId := some ec.id }
        corr := st
        effects := [Effect.jiraGetComments jiraKey,
          Effect.jiraUpdateComment jiraKey ec.id
            ("**" ++ comment.user.login ++ "** commented on GitHub:\n\n" ++ comment.body)] }
    | none =>
      { result := { success := true, sourceId := toString comment.id, targetId := none }
        corr := st
        effects := [Effect.jiraGetComments jiraKey] }

/-- extractTextFromJiraBody: concatenate the span texts of each block and
join the blocks with newlines. -/
def extractTextFromJiraBody (body : JiraCommentBody) : String :=
  String.intercalate "\n"
    (body.content.map (fun block => String.join (block.content.map (fun s => s.text))))

/-- syncJiraCommentCreated: requires the parent issue to be mapped;
otherwise fails with the parent-not-mapped error without any external call. -/
def syncJiraCommentCreated (env : Env) (st : CorrMap) (comment : JiraComment)
    (issue : JiraIssue) : EngineStep :=
  match getGitHubNumberForJiraIssue st issue.key with
  | none =>
    { result := { success := false, sourceId := comment.id,
                  error := some "GitHub issue not found" }
      corr := st
      effects := [] }
  | some githubNumber =>
    let commentBody := "**" ++ comment.author.displayName ++ "** commented on Jira:\n\n" ++
      extractTextFromJiraBody comment.body
    { result := { success := true, sourceId := comment.id,
                  targetId := some (toString env.githubCreateCommentId) }
      corr := st
      effects := [Effect.githubCreateComment env.config.githubOrg env.config.githubRepo
        githubNumber commentBody] }

/-- syncJiraCommentUpdated: requires the parent issue to be mapped;
otherwise fails with the parent-not-mapped error. When mapped, the source
only fetches the GitHub comments and reports success without a target. -/
def syncJiraCommentUpdated (env : Env) (st : CorrMap) (comment : JiraComment)
    (issue : JiraIssue) : EngineStep :=
  match getGitHubNumberForJiraIssue st issue.key with
  | none =>
    { result := { success := false, sourceId := comment.id,
                  error := some "GitHub issue not found" }
      corr := st
      effects := [] }
  | some githubNumber =>
    { result := { success := true, sourceId := comment.id, targetId := none }
      corr := st
      effects := [Effect.githubGetComments env.config.githubOrg env.config.githubRepo
        githubNumber] }

/-- The GitHub-state column of the status write performed by
syncJiraIssueUpdated: the own vocabulary of the sync engine maps the Jira status
category done to the GitHub state closed and everything else to open. -/
def jiraStatusCategoryToGitHubState (statusCategoryKey : String) : String :=
  if statusCategoryKey = "done" then "closed" else "open"

/-! ## Queue configuration and retry policy (src/queue, src/config.ts) -/

/-- The queue slice of the configuration (envSchema): concurrency,
maximum attempts and base retry delay, with their schema defaults. -/
structure QueueConfig where
  concurrency : Nat
  maxRetries : Nat
  retryDelay : Nat
deriving DecidableEq

/-- The envSchema defaults: QUEUE_CONCURRENCY 10, QUEUE_MAX_RETRIES 3,
QUEUE_RETRY_DELAY 5000. -/
def defaultQueueConfig : QueueConfig :=
  { concurrency := 10, maxRetries := 3, retryDelay := 5000 }

/-- The backoff options createQueue passes to the queue engine. -/
structure BackoffOptions where
  kind : String
  delay : Nat
deriving DecidableEq

/-- The default job options createQueue passes to the queue engine. -/
structure DefaultJobOptions where
  attempts : Nat
  backoff : BackoffOptions
deriving DecidableEq

/-- createQueue: attempts is the configured maxRetries and the backoff is
exponential starting at the configured retry delay. -/
def createQueueDefaultJobOptions (cfg : QueueConfig) : DefaultJobOptions :=
  { attempts := cfg.maxRetries
    backoff := { kind := "exponential", delay := cfg.retryDelay } }

/-- The terminal status of a job after the queue engine is done with it. -/
inductive JobTerminal where
  | completed
  | failed
deriving DecidableEq

/-- Modelled from the spec: the exponential backoff schedule of the queue
engine (the BullMQ runtime is external to the repository) — the delay before
the n-th retry is the configured base delay doubled each retry. -/
def backoffDelay (baseDelay n : Nat) : Nat :=
  baseDelay * 2 ^ n

/-- Modelled from the spec: the attempt loop of the queue engine (the BullMQ
runtime is external to the repository) — run the job until it succeeds or
the attempt budget is exhausted, returning the terminal status and the
number of executions; a job whose attempts are exhausted is failed, never
dropped. -/
def runAttemptsFrom (run : Nat → Bool) (i : Nat) : Nat → JobTerminal × Nat
  | 0 => (JobTerminal.failed, 0)
  | fuel + 1 =>
    if run i then (JobTerminal.completed, 1)
    else ((runAttemptsFrom run (i + 1) fuel).1, (runAttemptsFrom run (i + 1) fuel).2 + 1)

/-- Modelled from the spec: process a job with the given attempt budget. -/
def runJob (attempts : Nat) (run : Nat → Bool) : JobTerminal × Nat :=
  runAttemptsFrom run 0 attempts

/-! ## Concrete sample data used by witnesses and counterexamples -/

/-- A GitHub issue used by the C1 witness. -/
def c1GithubIssue : GitHubIssue :=
  { id := 42
    number := 5
    title := "Crash on save"
    body := some "Steps to reproduce"
    state := "open"
    created_at := 0
    updated_at := 100
    closed_at := none
    labels := [{ id := 1, name := "bug", color := "red" }]
    assignees := []
    user := { id := 1, login := "alice" } }

/-- A Jira snapshot served by the sample environment of the C1 witness. -/
def c1JiraIssue : JiraIssue :=
  { id := "10001"
    key := "PROJ-1"
    fields := {
      summary := "Crash on save"
      description := some "Steps to reproduce"
      status := { id := "1", name := "To Do", statusCategory := { key := "open", name := "To Do" } }
      created := 0
      updated := 100
      assignee := none
      labels := ["bug"] } }

/-- The environment of the C1 witness. -/
def c1Env : Env :=
  { config := {
      jiraProjectKey := "PROJ"
      githubOrg := "acme"
      githubRepo := "app"
      conflictResolution := ConflictResolutionStrategy.LAST_WRITE_WINS }
    jiraCreateKey := "PROJ-1"
    jiraGetIssue := fun _ => c1JiraIssue
    jiraTransitions := fun _ => []
    jiraGetComments := fun _ => []
    jiraCreateCommentId := "20001"
    githubCreateNumber := 55
    githubGetIssue := fun _ => c1GithubIssue
    githubCreateCommentId := 77 }

/-- A ConflictData record whose two updatedAt instants tie exactly. -/
def c2TieData : ConflictData :=
  { githubData := {
      title := "GitHub Title"
      body := some "B"
      state := "open"
      labels := []
      assignees := []
      updatedAt := 1000 }
    jiraData := {
      summary := "Jira Title"
      description := some "B"
      status := "To Do"
      labels := []
      assignee := none
      updatedAt := 1000 }
    githubUpdatedAt := 1000
    jiraUpdatedAt := 1000
    conflictingFields := ["title"] }

/-- A ConflictData record whose github side is strictly newer. -/
def c2GithubNewerData : ConflictData :=
  { githubData := {
      title := "GitHub Title"
      body := some "B"
      state := "open"
      labels := []
      assignees := []
      updatedAt := 2000 }
    jiraData := {
      summary := "Jira Title"
      description := some "B"
      status := "To Do"
      labels := []
      assignee := none
      updatedAt := 1000 }
    githubUpdatedAt := 2000
    jiraUpdatedAt := 1000
    conflictingFields := ["title"] }

/-- A GitHub issue used by the C4 counterexample. -/
def c4GithubIssue : GitHubIssue :=
  { id := 101
    number := 7
    title := "Sample"
    body := some "Body"
    state := "open"
    created_at := 0
    updated_at := 10
    closed_at := none
    labels := []
    assignees := []
    user := { id := 1, login := "alice" } }

/-- A Jira issue whose labels array is not sorted. -/
def c4JiraIssue : JiraIssue :=
  { id := "10004"
    key := "PROJ-4"
    fields := {
      summary := "Sample"
      description := some "Body"
      status := { id := "1", name := "To Do", statusCategory := { key := "open", name := "To Do" } }
      created := 0
      updated := 10
      assignee := none
      labels := ["ui", "backend"] } }

/-- A GitHub issue that differs from its Jira counterpart only in title. -/
def c5GithubIssue : GitHubIssue :=
  { id := 105
    number := 9
    title := "GitHub Title"
    body := some "Shared body"
    state := "open"
    created_at := 0
    updated_at := 10
    closed_at := none
    labels := []
    assignees := []
    user := { id := 1, login := "alice" } }

/-- The Jira counterpart of the C5 witness issue. -/
def c5JiraIssue : JiraIssue :=
  { id := "10005"
    key := "PROJ-5"
    fields := {
      summary := "Jira Title"
      description := some "Shared body"
      status := { id := "1", name := "To Do", statusCategory := { key := "open", name := "To Do" } }
      created := 0
      updated := 10
      assignee := none
      labels := [] } }

/-- A closed GitHub issue equal to its Jira counterpart in every compared
field except the raw status strings. -/
def c6GithubIssue : GitHubIssue :=
  { id := 7
    number := 7
    title := "Same"
    body := some "Same body"
    state := "closed"
    created_at := 0
    updated_at := 50
    closed_at := some 50
    labels := [{ id := 1, name := "bug", color := "red" }]
    assignees := []
    user := { id := 1, login := "alice" } }

/-- A Jira issue in the done status category, matching the C6 GitHub issue
in every other compared field. -/
def c6JiraIssue : JiraIssue :=
  { id := "10007"
    key := "PROJ-7"
    fields := {
      summary := "Same"
      description := some "Same body"
      status := { id := "3", name := "Done", statusCategory := { key := "done", name := "Done" } }
      created := 0
      updated := 50
      assignee := none
      labels := ["bug"] } }

/-- The environment of the C7 witness. -/
def c7Env : Env :=
  { config := {
      jiraProjectKey := "PROJ"
      githubOrg := "acme"
      githubRepo := "app"
      conflictResolution := ConflictResolutionStrategy.LAST_WRITE_WINS }
    jiraCreateKey := "PROJ-2"
    jiraGetIssue := fun _ => c1JiraIssue
    jiraTransitions := fun _ => []
    jiraGetComments := fun _ => []
    jiraCreateCommentId := "20002"
    githubCreateNumber := 56
    githubGetIssue := fun _ => c1GithubIssue
    githubCreateCommentId := 78 }

/-- A GitHub comment whose parent issue has no correlation entry. -/
def c7GithubComment : GitHubComment :=
  { id := 501
    body := "Looks good"
    created_at := 0
    updated_at := 0
    user := { id := 2, login := "bob" } }

/-- The unmapped parent issue of the C7 GitHub comment. -/
def c7GithubIssue : GitHubIssue :=
  { id := 77
    number := 11
    title := "Orphan"
    body := none
    state := "open"
    created_at := 0
    updated_at := 0
    closed_at := none
    labels := []
    assignees := []
    user := { id := 2, login := "bob" } }

/-- A Jira comment whose parent issue has no correlation entry. -/
def c7JiraComment : JiraComment :=
  { id := "30001"
    body := { content := [{ content := [{ text := "Looks good" }] }] }
    author := { accountId := "u-2", displayName := "Bob" } }

/-- The unmapped parent issue of the C7 Jira comment. -/
def c7JiraIssue : JiraIssue :=
  { id := "10077"
    key := "PROJ-77"
    fields := {
      summary := "Orphan"
      description := none
      status := { id := "1", name := "To Do", statusCategory := { key := "open", name := "To Do" } }
      created := 0
      updated := 0
      assignee := none
      labels := [] } }

/-- A GitHub issue snapshot before an edit. -/
def c10IssueBefore : GitHubIssue :=
  { id := 9001
    number := 12
    title := "Old title"
    body := some "old"
    state := "open"
    created_at := 0
    updated_at := 100
    closed_at := none
    labels := []
    assignees := []
    user := { id := 3, login := "carol" } }

/-- The same GitHub issue after a genuinely distinct edit: different title,
body and update instant. -/
def c10IssueAfter : GitHubIssue :=
  { c10IssueBefore with
    title := "New title"
    body := some "new"
    updated_at := 200 }

/-- The webhook payload of the first edit. -/
def c10PayloadBefore : GitHubWebhookPayload :=
  { action := some "edited"
    issue := some c10IssueBefore
    comment := none
    changes := some [("title", "Old title")]
    repository := some { id := 1, name := "app", full_name := "acme/app" }
    sender := { id := 3, login := "carol", type := "User" } }

/-- The webhook payload of the second, distinct edit: same action,
repository, issue id and sender, different content and changes. -/
def c10PayloadAfter : GitHubWebhookPayload :=
  { c10PayloadBefore with
    issue := some c10IssueAfter
    changes := some [("title", "New title")] }

/-! ## Helper lemmas -/

theorem insertSortedStr_perm (x : String) (l : List String) :
    (insertSortedStr x l).Perm (x :: l) := by
  induction l with
  | nil => exact List.Perm.refl _
  | cons y ys ih =>
    unfold insertSortedStr
    split
    · exact List.Perm.refl _
    · exact (ih.cons y).trans (List.Perm.swap x y ys)

theorem sortStrings_perm (l : List String) : (sortStrings l).Perm l := by
  induction l with
  | nil => exact List.Perm.refl _
  | cons x xs ih => exact (insertSortedStr_perm x (sortStrings xs)).trans (ih.cons x)

theorem detectConflicts_fst (gh : GitHubIssue) (ji : JiraIssue) :
    (detectConflicts gh ji).1 =
      if conflictList gh ji = [] then none else some (conflictReport gh ji) := by
  unfold detectConflicts
  split <;> simp_all

theorem conflictList_eq_nil_iff (gh : GitHubIssue) (ji : JiraIssue) :
    conflictList gh ji = [] ↔
      (titleConflict gh ji = false ∧ descriptionConflict gh ji = false ∧
       statusConflict gh ji = false ∧ labelsConflict gh ji = false ∧
       assigneesConflict gh ji = false) := by
  unfold conflictList
  cases titleConflict gh ji <;> cases descriptionConflict gh ji <;>
    cases statusConflict gh ji <;> cases labelsConflict gh ji <;>
    cases assigneesConflict gh ji <;> simp

theorem mem_conflictList (gh : GitHubIssue) (ji : JiraIssue) (f : String) :
    f ∈ conflictList gh ji ↔
      ((f = "title" ∧ titleConflict gh ji = true) ∨
       (f = "description" ∧ descriptionConflict gh ji = true) ∨
       (f = "status" ∧ statusConflict gh ji = true) ∨
       (f = "labels" ∧ labelsConflict gh ji = true) ∨
       (f = "assignees" ∧ assigneesConflict gh ji = true)) := by
  unfold conflictList
  cases titleConflict gh ji <;> cases descriptionConflict gh ji <;>
    cases statusConflict gh ji <;> cases labelsConflict gh ji <;>
    cases assigneesConflict gh ji <;> simp

theorem updateJiraFromGitHub_noCreate (env : Env) (st : CorrMap)
    (gh : GitHubIssue) (k : String) :
    countCreates (updateJiraFromGitHub env st gh k).effects = 0 ∧
    (updateJiraFromGitHub env st gh k).corr = st ∧
    hasUpdateCall (updateJiraFromGitHub env st gh k).effects = true ∧
    (updateJiraFromGitHub env st gh k).result.targetId = some k := by
  unfold updateJiraFromGitHub
  refine ⟨?_, rfl, ?_, rfl⟩
  · simp only [countCreates, List.cons_append, List.nil_append]
    simp only [List.filter, Effect.isCreateIssue]
    split
    · split <;> simp [List.filter, Effect.isCreateIssue]
    · simp [List.filter, Effect.isCreateIssue]
  · simp [hasUpdateCall, Effect.isUpdateIssue]

theorem createJiraFromGitHub_creates (env : Env) (st : CorrMap) (gh : GitHubIssue) :
    countCreates (createJiraFromGitHub env st gh).effects = 1 ∧
    (createJiraFromGitHub env st gh).corr = (gh.id, env.jiraCreateKey) :: st := by
  constructor
  · simp [createJiraFromGitHub, countCreates, List.filter, Effect.isCreateIssue]
  · rfl

theorem getJiraKeyForGitHubIssue_insert (st : CorrMap) (id : Nat) (k : String) :
    getJiraKeyForGitHubIssue ((id, k) :: st) id = some k := by
  simp [getJiraKeyForGitHubIssue, List.find?]

theorem runAttemptsFrom_count_le (run : Nat → Bool) (fuel : Nat) :
    ∀ i, (runAttemptsFrom run i fuel).2 ≤ fuel := by
  induction fuel with
  | zero => intro i; simp [runAttemptsFrom]
  | succ n ih =>
    intro i
    unfold runAttemptsFrom
    split
    · simp
    · have := ih (i + 1)
      simp only []
      omega

theorem runAttemptsFrom_allFail (run : Nat → Bool) (h : ∀ i, run i = false)
    (fuel : Nat) : ∀ i, (runAttemptsFrom run i fuel).1 = JobTerminal.failed := by
  induction fuel with
  | zero => intro i; rfl
  | succ n ih =>
    intro i
    unfold runAttemptsFrom
    rw [h i]
    simp [ih (i + 1)]

/-! ## Claim theorems -/

/-- Claim C2 counterexample: on an exact updatedAt tie the last-write-wins
strategy resolves jira_wins (the else branch), not github_wins as the claim
states. -/
theorem resolveLastWriteWins_tie_counterexample :
    c2TieData.githubUpdatedAt = c2TieData.jiraUpdatedAt ∧
    (resolveConflict c2TieData ConflictResolutionStrategy.LAST_WRITE_WINS none).resolution =
      ResolutionKind.jira_wins ∧
    (resolveConflict c2TieData ConflictResolutionStrategy.LAST_WRITE_WINS none).resolution ≠
      ResolutionKind.github_wins := by
  decide

/-- Claim C2 (amended): last-write-wins resolves for the side whose
updatedAt instant is strictly greater; an exact tie deterministically
resolves for the Jira side (the else branch of the comparison), not the
GitHub side. -/
theorem resolveLastWriteWins_newer_side_wins (conflictData : ConflictData)
    (customMapping : Option CustomMapping) :
    (conflictData.githubUpdatedAt > conflictData.jiraUpdatedAt →
      (resolveConflict conflictData ConflictResolutionStrategy.LAST_WRITE_WINS
        customMapping).resolution = ResolutionKind.github_wins) ∧
    (conflictData.jiraUpdatedAt > conflictData.githubUpdatedAt →
      (resolveConflict conflictData ConflictResolutionStrategy.LAST_WRITE_WINS
        customMapping).resolution = ResolutionKind.jira_wins) ∧
    (conflictData.githubUpdatedAt = conflictData.jiraUpdatedAt →
      (resolveConflict conflictData ConflictResolutionStrategy.LAST_WRITE_WINS
        customMapping).resolution = ResolutionKind.jira_wins) := by
  refine ⟨fun h => ?_, fun h => ?_, fun h => ?_⟩
  · simp [resolveConflict, resolveLastWriteWins, resolveGitHubWins, h]
  · have h2 : ¬ (conflictData.githubUpdatedAt > conflictData.jiraUpdatedAt) := by omega
    simp [resolveConflict, resolveLastWriteWins, resolveJiraWins, h2]
  · have h2 : ¬ (conflictData.githubUpdatedAt > conflictData.jiraUpdatedAt) := by omega
    simp [resolveConflict, resolveLastWriteWins, resolveJiraWins, h2]

/-- Claim C2 witness: on concrete data a strictly newer GitHub side wins,
and an exact tie resolves for Jira. -/
theorem resolveLastWriteWins_newer_side_wins_witness :
    (resolveConflict c2GithubNewerData ConflictResolutionStrategy.LAST_WRITE_WINS
      none).resolution = ResolutionKind.github_wins ∧
    (resolveConflict c2TieData ConflictResolutionStrategy.LAST_WRITE_WINS
      none).resolution = ResolutionKind.jira_wins :=
  ⟨(resolveLastWriteWins_newer_side_wins c2GithubNewerData none).1 (by decide),
   (resolveLastWriteWins_newer_side_wins c2TieData none).2.2 (by decide)⟩

/-- Claim C4 counterexample: detectConflicts does not leave the Jira
argument unchanged — it sorts the labels array of the Jira issue in place
(Array.prototype.sort), so an unsorted labels array is reordered by the
call. -/
theorem detectConflicts_mutates_jira_labels :
    (detectConflicts c4GithubIssue c4JiraIssue).2.fields.labels ≠
      c4JiraIssue.fields.labels ∧
    (detectConflicts c4GithubIssue c4JiraIssue).2.fields.labels = ["backend", "ui"] ∧
    c4JiraIssue.fields.labels = ["ui", "backend"] := by
  decide

/-- Claim C4 (amended): detectConflicts and resolveConflict are pure
functions of their arguments except that detectConflicts sorts the labels
array of the Jira issue argument in place; the issue it leaves behind is
the input with exactly that labels array sorted (a permutation of the
original), and every other field unchanged. -/
theorem detectConflicts_frame (githubIssue : GitHubIssue) (jiraIssue : JiraIssue) :
    (detectConflicts githubIssue jiraIssue).2 =
      { jiraIssue with fields :=
        { jiraIssue.fields with labels := sortStrings jiraIssue.fields.labels } } ∧
    ((detectConflicts githubIssue jiraIssue).2.fields.labels).Perm
      jiraIssue.fields.labels := by
  have h2 : (detectConflicts githubIssue jiraIssue).2 =
      { jiraIssue with fields :=
        { jiraIssue.fields with labels := sortStrings jiraIssue.fields.labels } } := by
    by_cases hc : conflictList githubIssue jiraIssue = [] <;>
      simp [detectConflicts, hc]
  refine ⟨h2, ?_⟩
  rw [h2]
  exact sortStrings_perm _

/-- Claim C5: detectConflicts returns no report exactly when none of the
five compared fields differs, and a returned report carries a non-empty
conflictingFields list holding precisely the names of the differing
fields. -/
theorem detectConflicts_report_iff (gh : GitHubIssue) (ji : JiraIssue) :
    ((detectConflicts gh ji).1 = none ↔
      (titleConflict gh ji = false ∧ descriptionConflict gh ji = false ∧
       statusConflict gh ji = false ∧ labelsConflict gh ji = false ∧
       assigneesConflict gh ji = false)) ∧
    (∀ cd : ConflictData, (detectConflicts gh ji).1 = some cd →
      cd.conflictingFields ≠ [] ∧
      (("title" ∈ cd.conflictingFields) ↔ titleConflict gh ji = true) ∧
      (("description" ∈ cd.conflictingFields) ↔ descriptionConflict gh ji = true) ∧
      (("status" ∈ cd.conflictingFields) ↔ statusConflict gh ji = true) ∧
      (("labels" ∈ cd.conflictingFields) ↔ labelsConflict gh ji = true) ∧
      (("assignees" ∈ cd.conflictingFields) ↔ assigneesConflict gh ji = true) ∧
      (∀ f ∈ cd.conflictingFields,
        f ∈ (["title", "description", "status", "labels", "assignees"] : List String))) := by
  constructor
  · rw [detectConflicts_fst]
    constructor
    · intro h
      by_cases hc : conflictList gh ji = []
      · exact (conflictList_eq_nil_iff gh ji).mp hc
      · simp [hc] at h
    · intro h
      have hc : conflictList gh ji = [] := (conflictList_eq_nil_iff gh ji).mpr h
      simp [hc]
  · intro cd hcd
    rw [detectConflicts_fst] at hcd
    by_cases hc : conflictList gh ji = []
    · rw [if_pos hc] at hcd
      simp at hcd
    · rw [if_neg hc] at hcd
      injection hcd with h
      subst h
      have hfields : (conflictReport gh ji).conflictingFields = conflictList gh ji := rfl
      rw [hfields]
      refine ⟨hc, ?_, ?_, ?_, ?_, ?_, ?_⟩
      · rw [mem_conflictList]
        simp
      · rw [mem_conflictList]
        simp
      · rw [mem_conflictList]
        simp
      · rw [mem_conflictList]
        simp
      · rw [mem_conflictList]
        simp
      · intro f hf
        rcases (mem_conflictList gh ji f).mp hf with
          ⟨rfl, _⟩ | ⟨rfl, _⟩ | ⟨rfl, _⟩ | ⟨rfl, _⟩ | ⟨rfl, _⟩ <;> simp

/-- Claim C5 witness: a pair differing only in title yields a report whose
conflictingFields contains the title field. -/
theorem detectConflicts_report_iff_witness :
    "title" ∈ (conflictReport c5GithubIssue c5JiraIssue).conflictingFields :=
  (((detectConflicts_report_iff c5GithubIssue c5JiraIssue).2
      (conflictReport c5GithubIssue c5JiraIssue) (by decide)).2.1).mpr (by decide)

/-- Claim C6 (code-bug evaluation): a closed GitHub issue and a Jira issue
whose status category is done — identical in every other compared field, and
identified by the own vocabulary of the sync engine (done maps to closed) —
are nevertheless reported as a status conflict, because detectConflicts
compares the raw strings closed and done without any vocabulary mapping. -/
theorem detectConflicts_status_not_mapped :
    c6GithubIssue.state = "closed" ∧
    c6JiraIssue.fields.status.statusCategory.key = "done" ∧
    jiraStatusCategoryToGitHubState c6JiraIssue.fields.status.statusCategory.key =
      c6GithubIssue.state ∧
    ((detectConflicts c6GithubIssue c6JiraIssue).1.map
      (fun cd => cd.conflictingFields)) = some ["status"] := by
  decide

/-- Claim C8: the deduplication store is fail-open — when the underlying
Redis operation raises, isDuplicate reports false and processDeduplication
allows processing, leaving the store unchanged. -/
theorem dedup_fail_open (st : DedupStore) (now ttl : Nat) (hash : String) :
    isDuplicate st now StoreOutcome.err hash = false ∧
    processDeduplication st now StoreOutcome.err hash ttl =
      ({ isDuplicate := false, shouldProcess := true }, st) :=
  ⟨rfl, rfl⟩

theorem syncGitHubIssueCreated_mapped (env : Env) (st : CorrMap) (gh : GitHubIssue)
    (k : String) (hk : getJiraKeyForGitHubIssue st gh.id = some k) :
    syncGitHubIssueCreated env st gh = updateJiraFromGitHub env st gh k := by
  unfold syncGitHubIssueCreated
  rw [hk]

theorem syncGitHubIssueCreated_unmapped (env : Env) (st : CorrMap) (gh : GitHubIssue)
    (hk : getJiraKeyForGitHubIssue st gh.id = none) :
    syncGitHubIssueCreated env st gh = createJiraFromGitHub env st gh := by
  unfold syncGitHubIssueCreated
  rw [hk]

/-- Claim C1: processing issue-created is idempotent with respect to the
correlation map — with an existing correlation the call is routed into the
update branch (no create call, no correlation write, an update call is
made against the mapped key); without one it performs exactly one create
and records the mapping, so that a second run on the resulting map
performs no create and is routed into the update branch. -/
theorem syncGitHubIssueCreated_idempotent (env env2 : Env) (st : CorrMap)
    (gh : GitHubIssue) :
    (∀ k, getJiraKeyForGitHubIssue st gh.id = some k →
      countCreates (syncGitHubIssueCreated env st gh).effects = 0 ∧
      (syncGitHubIssueCreated env st gh).corr = st ∧
      hasUpdateCall (syncGitHubIssueCreated env st gh).effects = true ∧
      (syncGitHubIssueCreated env st gh).result.targetId = some k) ∧
    (getJiraKeyForGitHubIssue st gh.id = none →
      countCreates (syncGitHubIssueCreated env st gh).effects = 1 ∧
      getJiraKeyForGitHubIssue (syncGitHubIssueCreated env st gh).corr gh.id =
        some env.jiraCreateKey ∧
      countCreates (syncGitHubIssueCreated env2
        (syncGitHubIssueCreated env st gh).corr gh).effects = 0 ∧
      hasUpdateCall (syncGitHubIssueCreated env2
        (syncGitHubIssueCreated env st gh).corr gh).effects = true ∧
      (syncGitHubIssueCreated env2
        (syncGitHubIssueCreated env st gh).corr gh).corr =
        (syncGitHubIssueCreated env st gh).corr) := by
  constructor
  · intro k hk
    rw [syncGitHubIssueCreated_mapped env st gh k hk]
    exact updateJiraFromGitHub_noCreate env st gh k
  · intro hk
    have h1 := syncGitHubIssueCreated_unmapped env st gh hk
    have hcorr : (syncGitHubIssueCreated env st gh).corr =
        (gh.id, env.jiraCreateKey) :: st := by
      rw [h1]
      exact (createJiraFromGitHub_creates env st gh).2
    have hlook : getJiraKeyForGitHubIssue (syncGitHubIssueCreated env st gh).corr gh.id =
        some env.jiraCreateKey := by
      rw [hcorr]
      exact getJiraKeyForGitHubIssue_insert st gh.id env.jiraCreateKey
    have h2 := syncGitHubIssueCreated_mapped env2 (syncGitHubIssueCreated env st gh).corr
      gh env.jiraCreateKey hlook
    refine ⟨?_, hlook, ?_, ?_, ?_⟩
    · rw [h1]
      exact (createJiraFromGitHub_creates env st gh).1
    · rw [h2]
      exact (updateJiraFromGitHub_noCreate env2 _ gh env.jiraCreateKey).1
    · rw [h2]
      exact (updateJiraFromGitHub_noCreate env2 _ gh env.jiraCreateKey).2.2.1
    · rw [h2]
      exact (updateJiraFromGitHub_noCreate env2 _ gh env.jiraCreateKey).2.1

/-- Claim C1 witness: on a concrete issue and an empty correlation map the
first run creates once and records the mapping, and a second run creates
nothing, performs an update and leaves the map unchanged. -/
theorem syncGitHubIssueCreated_idempotent_witness :
    countCreates (syncGitHubIssueCreated c1Env ([] : CorrMap) c1GithubIssue).effects = 1 ∧
    getJiraKeyForGitHubIssue (syncGitHubIssueCreated c1Env ([] : CorrMap)
      c1GithubIssue).corr c1GithubIssue.id = some c1Env.jiraCreateKey ∧
    countCreates (syncGitHubIssueCreated c1Env
      (syncGitHubIssueCreated c1Env ([] : CorrMap) c1GithubIssue).corr
      c1GithubIssue).effects = 0 ∧
    hasUpdateCall (syncGitHubIssueCreated c1Env
      (syncGitHubIssueCreated c1Env ([] : CorrMap) c1GithubIssue).corr
      c1GithubIssue).effects = true ∧
    (syncGitHubIssueCreated c1Env
      (syncGitHubIssueCreated c1Env ([] : CorrMap) c1GithubIssue).corr
      c1GithubIssue).corr =
      (syncGitHubIssueCreated c1Env ([] : CorrMap) c1GithubIssue).corr :=
  (syncGitHubIssueCreated_idempotent c1Env c1Env ([] : CorrMap) c1GithubIssue).2 (by decide)

/-- Claim C3: a claim against an absent or expired key succeeds and creates
the key; every further claim on the same hash strictly before the ttl
elapses is rejected as a duplicate and leaves the store unchanged; once the
ttl has elapsed a fresh claim succeeds again. -/
theorem processDeduplication_at_most_once (st : DedupStore) (now ttl : Nat)
    (hash : String)
    (hfree : st.live now (dedupKeyNamespace ++ hash) = false) :
    ((processDeduplication st now StoreOutcome.ok hash ttl).1 =
      { isDuplicate := false, shouldProcess := true }) ∧
    (∀ now2, now ≤ now2 → now2 < now + ttl →
      (processDeduplication (processDeduplication st now StoreOutcome.ok hash ttl).2 now2
        StoreOutcome.ok hash ttl).1 =
        { isDuplicate := true, shouldProcess := false } ∧
      (processDeduplication (processDeduplication st now StoreOutcome.ok hash ttl).2 now2
        StoreOutcome.ok hash ttl).2 =
        (processDeduplication st now StoreOutcome.ok hash ttl).2) ∧
    (∀ now3, now + ttl ≤ now3 →
      (processDeduplication (processDeduplication st now StoreOutcome.ok hash ttl).2 now3
        StoreOutcome.ok hash ttl).1.shouldProcess = true) := by
  have hrun : processDeduplication st now StoreOutcome.ok hash ttl =
      ({ isDuplicate := false, shouldProcess := true },
       DedupStore.mk ((dedupKeyNamespace ++ hash, now + ttl) ::
         st.entries.filter (fun e => !(e.1 == dedupKeyNamespace ++ hash)))) := by
    simp [processDeduplication, DedupStore.setNxEx, hfree]
  have hlive : ∀ t, (DedupStore.mk ((dedupKeyNamespace ++ hash, now + ttl) ::
      st.entries.filter (fun e => !(e.1 == dedupKeyNamespace ++ hash)))).live t
        (dedupKeyNamespace ++ hash) = decide (t < now + ttl) := by
    intro t
    simp [DedupStore.live, List.find?]
  refine ⟨?_, ?_, ?_⟩
  · rw [hrun]
  · intro now2 h1 h2
    rw [hrun]
    constructor
    · simp [processDeduplication, DedupStore.setNxEx, hlive, h2]
    · simp [processDeduplication, DedupStore.setNxEx, hlive, h2]
  · intro now3 h3
    rw [hrun]
    have h4 : ¬ (now3 < now + ttl) := by omega
    simp [processDeduplication, DedupStore.setNxEx, hlive, h4]

/-- Claim C3 witness: on an empty store, a claim at time 0 succeeds, a
second claim at time 299 (within the 300 second ttl) is rejected, and a
claim at time 300 succeeds again. -/
theorem processDeduplication_at_most_once_witness :
    ((processDeduplication (DedupStore.mk []) 0 StoreOutcome.ok "h1" 300).1 =
      { isDuplicate := false, shouldProcess := true }) ∧
    ((processDeduplication (processDeduplication (DedupStore.mk []) 0 StoreOutcome.ok
      "h1" 300).2 299 StoreOutcome.ok "h1" 300).1 =
      { isDuplicate := true, shouldProcess := false }) ∧
    ((processDeduplication (processDeduplication (DedupStore.mk []) 0 StoreOutcome.ok
      "h1" 300).2 300 StoreOutcome.ok "h1" 300).1.shouldProcess = true) :=
  ⟨(processDeduplication_at_most_once (DedupStore.mk []) 0 300 "h1" (by decide)).1,
   ((processDeduplication_at_most_once (DedupStore.mk []) 0 300 "h1" (by decide)).2.1
      299 (by decide) (by decide)).1,
   (processDeduplication_at_most_once (DedupStore.mk []) 0 300 "h1" (by decide)).2.2
      300 (by decide)⟩

/-- Claim C7: a comment-created or comment-updated job whose parent issue
has no correlation entry returns a failure result carrying the
parent-not-mapped error and performs no external call, in both directions;
and a job that keeps failing is retried only within its bounded attempt
budget and then terminates as failed, never silently discarded. -/
theorem commentCreated_unmapped_fails (env : Env) (st : CorrMap)
    (ghComment : GitHubComment) (ghIssue : GitHubIssue)
    (jComment : JiraComment) (jIssue : JiraIssue)
    (attempts : Nat) (run : Nat → Bool) :
    (getJiraKeyForGitHubIssue st ghIssue.id = none →
      (syncGitHubCommentCreated env st ghComment ghIssue).result.success = false ∧
      (syncGitHubCommentCreated env st ghComment ghIssue).result.error =
        some "Jira issue not found" ∧
      (syncGitHubCommentCreated env st ghComment ghIssue).effects = [] ∧
      (syncGitHubCommentCreated env st ghComment ghIssue).corr = st ∧
      (syncGitHubCommentUpdated env st ghComment ghIssue).result.success = false ∧
      (syncGitHubCommentUpdated env st ghComment ghIssue).effects = []) ∧
    (getGitHubNumberForJiraIssue st jIssue.key = none →
      (syncJiraCommentCreated env st jComment jIssue).result.success = false ∧
      (syncJiraCommentCreated env st jComment jIssue).result.error =
        some "GitHub issue not found" ∧
      (syncJiraCommentCreated env st jComment jIssue).effects = [] ∧
      (syncJiraCommentUpdated env st jComment jIssue).result.success = false) ∧
    ((∀ i, run i = false) →
      (runJob attempts run).1 = JobTerminal.failed ∧
      (runJob attempts run).2 ≤ attempts) := by
  refine ⟨fun h => ?_, fun h => ?_, fun h => ?_⟩
  · unfold syncGitHubCommentCreated syncGitHubCommentUpdated
    rw [h]
    exact ⟨rfl, rfl, rfl, rfl, rfl, rfl⟩
  · unfold syncJiraCommentCreated syncJiraCommentUpdated
    rw [h]
    exact ⟨rfl, rfl, rfl, rfl⟩
  · exact ⟨runAttemptsFrom_allFail run h attempts 0, runAttemptsFrom_count_le run attempts 0⟩

/-- Claim C7 witness: with an empty correlation map both comment-created
directions fail, and an always-failing job with a budget of three attempts
terminates as failed. -/
theorem commentCreated_unmapped_fails_witness :
    (syncGitHubCommentCreated c7Env ([] : CorrMap) c7GithubComment
      c7GithubIssue).result.success = false ∧
    (syncJiraCommentCreated c7Env ([] : CorrMap) c7JiraComment
      c7JiraIssue).result.success = false ∧
    (runJob 3 (fun _ => false)).1 = JobTerminal.failed :=
  ⟨((commentCreated_unmapped_fails c7Env ([] : CorrMap) c7GithubComment c7GithubIssue
      c7JiraComment c7JiraIssue 3 (fun _ => false)).1 (by decide)).1,
   ((commentCreated_unmapped_fails c7Env ([] : CorrMap) c7GithubComment c7GithubIssue
      c7JiraComment c7JiraIssue 3 (fun _ => false)).2.1 (by decide)).1,
   ((commentCreated_unmapped_fails c7Env ([] : CorrMap) c7GithubComment c7GithubIssue
      c7JiraComment c7JiraIssue 3 (fun _ => false)).2.2 (fun _ => rfl)).1⟩

/-- Claim C9: a job is executed at most its configured attempt budget
(createQueue sets attempts to the configured maxRetries, default 3), an
always-failing job terminates as failed, and the exponential backoff delays
starting at the configured base delay are monotonically non-decreasing. -/
theorem queue_retry_bounded_backoff (cfg : QueueConfig) (run : Nat → Bool) (n : Nat) :
    (runJob (createQueueDefaultJobOptions cfg).attempts run).2 ≤ cfg.maxRetries ∧
    ((∀ i, run i = false) →
      (runJob (createQueueDefaultJobOptions cfg).attempts run).1 = JobTerminal.failed) ∧
    backoffDelay (createQueueDefaultJobOptions cfg).backoff.delay n ≤
      backoffDelay (createQueueDefaultJobOptions cfg).backoff.delay (n + 1) ∧
    (createQueueDefaultJobOptions cfg).backoff.kind = "exponential" ∧
    (createQueueDefaultJobOptions cfg).backoff.delay = cfg.retryDelay ∧
    defaultQueueConfig.maxRetries = 3 := by
  refine ⟨?_, ?_, ?_, rfl, rfl, rfl⟩
  · exact runAttemptsFrom_count_le run cfg.maxRetries 0
  · intro h
    exact runAttemptsFrom_allFail run h cfg.maxRetries 0
  · unfold backoffDelay
    have h2 : (2 : Nat) ^ n ≤ 2 ^ (n + 1) := Nat.pow_le_pow_right (by omega) (by omega)
    exact Nat.mul_le_mul (Nat.le_refl _) h2

/-- Claim C9 witness: with the default configuration an always-failing job
terminates as failed within its budget of three attempts. -/
theorem queue_retry_bounded_backoff_witness :
    (runJob (createQueueDefaultJobOptions defaultQueueConfig).attempts
      (fun _ => false)).1 = JobTerminal.failed ∧
    (runJob (createQueueDefaultJobOptions defaultQueueConfig).attempts
      (fun _ => false)).2 ≤ defaultQueueConfig.maxRetries :=
  ⟨(queue_retry_bounded_backoff defaultQueueConfig (fun _ => false) 0).2.1 (fun _ => rfl),
   (queue_retry_bounded_backoff defaultQueueConfig (fun _ => false) 0).1⟩

/-- Claim C10: the GitHub webhook deduplication hash depends only on the
action, the repository full name, the issue-or-comment id and the sender
id — two payloads agreeing on those produce the same hash whatever their
content, changes or timestamps, so while the first hash is unexpired the
second event is classified as a duplicate. -/
theorem generateEventHash_routing_fields_only (p1 p2 : GitHubWebhookPayload)
    (ha : p1.action = p2.action)
    (hr : p1.repository.map WebhookRepository.full_name =
      p2.repository.map WebhookRepository.full_name)
    (hi : webhookEventId p1 = webhookEventId p2)
    (hs : p1.sender.id = p2.sender.id) :
    generateEventHash "github" p1 = generateEventHash "github" p2 ∧
    (∀ st now, isDuplicate st now StoreOutcome.ok (generateEventHash "github" p1) = true →
      isDuplicate st now StoreOutcome.ok (generateEventHash "github" p2) = true) := by
  have hdata : webhookHashData "github" p1 = webhookHashData "github" p2 := by
    unfold webhookHashData
    rw [ha, hr, hi, hs]
  have hhash : generateEventHash "github" p1 = generateEventHash "github" p2 := by
    unfold generateEventHash
    rw [hdata]
  refine ⟨hhash, ?_⟩
  intro st now h
  rw [← hhash]
  exact h

/-- Claim C10 witness: two concrete payloads for genuinely distinct edits
of the same issue (different title, body, update instant and changes
record) hash identically. -/
theorem generateEventHash_routing_fields_only_witness :
    generateEventHash "github" c10PayloadBefore = generateEventHash "github" c10PayloadAfter ∧
    c10PayloadBefore ≠ c10PayloadAfter :=
  ⟨(generateEventHash_routing_fields_only c10PayloadBefore c10PayloadAfter rfl rfl
      (by decide) rfl).1,
   by decide⟩

end GithubJiraSync
